import Mathlib

/-!
Shallow embedding of the session & real-time coordination layer of the
pion-webrtc-microservice repository (Go).  Pure data is translated to Lean
structures; Go `map[string]T` values become association lists with
Go-map semantics (insert replaces the entry for the key, delete removes it,
iteration order is not observable by any property proved here); pointer
mutation becomes explicit state passing (each operation returns the updated
manager value).  Calls into external collaborators (persistence store, WebRTC
media capability, websocket transports) are abstracted by boolean outcome
parameters, exactly at the call sites where the Go code consults their error
results.  Timestamps (`time.Time`) are modelled as integers (milliseconds),
passed in as an explicit `now` argument where the Go code calls `time.Now()`.
Float64 audio levels are modelled as rationals; the embedding of
`ProcessAudioLevel` is defined (returns `some`) exactly on the sample blocks
for which the Go code neither panics (odd byte length) nor produces a
non-finite level (empty block, 0/0).
-/

/-! ### utils/response.go -/

/-- `utils.ErrorResponse`: structured error with an HTTP status classification. -/
structure ErrorResponse where
  StatusCode : Nat
  Message : String
deriving DecidableEq, Repr

/-- `utils.NewErrorResponse`. -/
def NewErrorResponse (statusCode : Nat) (message : String) : ErrorResponse :=
  { StatusCode := statusCode, Message := message }

/-- `http.StatusNotFound`. -/
def StatusNotFound : Nat := 404

/-- `http.StatusForbidden`. -/
def StatusForbidden : Nat := 403

/-- `http.StatusBadRequest`. -/
def StatusBadRequest : Nat := 400

/-- `http.StatusInternalServerError`. -/
def StatusInternalServerError : Nat := 500

/-! ### Go map model (association lists, Go-map semantics) -/

/-- Lookup in a Go map: the value stored under key `k`, if any. -/
def mapLookup {α : Type} (m : List (String × α)) (k : String) : Option α :=
  (m.find? (fun e => e.1 == k)).map (fun e => e.2)

/-- Go `delete(m, k)`: removes the entry for `k`. -/
def mapErase {α : Type} (m : List (String × α)) (k : String) : List (String × α) :=
  m.filter (fun e => !(e.1 == k))

/-- Go `m[k] = v`: stores `v` under `k`, replacing any previous entry. -/
def mapInsert {α : Type} (m : List (String × α)) (k : String) (v : α) :
    List (String × α) :=
  mapErase m k ++ [(k, v)]

/-! ### chat/chat.go and chat/message_types.go: data model -/

/-- `chat.Attachment`. -/
structure Attachment where
  Typ : String
  URL : String
  Name : String
  Size : Int
deriving DecidableEq, Repr

/-- `chat.Reaction`. -/
structure Reaction where
  Typ : String
  Content : String
  UserID : String
  Timestamp : Int
deriving DecidableEq, Repr

/-- `chat.ChatMessage` (field `Type` is rendered `Typ`). -/
structure ChatMessage where
  ID : String
  SenderID : String
  ReceiverID : String
  Typ : String
  Message : String
  Attachments : List Attachment
  Reactions : List Reaction
  Timestamp : Int
  IsEdited : Bool
  IsDeleted : Bool
deriving DecidableEq, Repr

/-- `chat.Participant`. -/
structure Participant where
  ID : String
  Role : String
  IsPinned : Bool
  IsMuted : Bool
  JoinTime : Int
deriving DecidableEq, Repr

/-- `chat.RoleAdmin`. -/
def RoleAdmin : String := "admin"

/-- `chat.RoleUser`. -/
def RoleUser : String := "user"

/-- `chat.ChatSession` (the `sync.Mutex` field has no data content). -/
structure ChatSession where
  ID : String
  Participants : List (String × Participant)
  StartTime : Int
  EndTime : Int
  Messages : List ChatMessage
  IsGroup : Bool
deriving DecidableEq, Repr

/-- Data payload of a `chat.Notification` (Go `interface{}`), restricted to the
payloads the chat manager actually sends. -/
inductive NotificationData where
  | messageData (m : ChatMessage)
  | moderationData (participantId : String) (action : String)
deriving DecidableEq, Repr

/-- `chat.Notification`. -/
structure Notification where
  Typ : String
  SessionID : String
  Data : NotificationData
deriving DecidableEq, Repr

/-- `chat.ChatManager` (the notification hub is modelled separately; messages
sent to it are returned as an explicit list by each operation). -/
structure ChatManager where
  sessions : List (String × ChatSession)
deriving DecidableEq, Repr

/-- Valid enumerated message types (`TextMessage` .. `SystemMessage`), as
switched on in `AddMessage`. -/
def validMessageType (t : String) : Bool :=
  t == "text" || t == "image" || t == "file" || t == "document" ||
    t == "emoji" || t == "system"

/-! ### chat/chat.go: operations -/

/-- `ChatManager.ModifyParticipantRole`: admin authorization check before the
role mutation. -/
def ChatManager.ModifyParticipantRole (cm : ChatManager)
    (sessionID adminID participantID : String) (newRole : String) :
    Option ErrorResponse × ChatManager :=
  match mapLookup cm.sessions sessionID with
  | none => (some (NewErrorResponse StatusNotFound "chat session not found"), cm)
  | some session =>
    match mapLookup session.Participants adminID with
    | none => (some (NewErrorResponse StatusForbidden "unauthorized to modify roles"), cm)
    | some admin =>
      if admin.Role ≠ RoleAdmin then
        (some (NewErrorResponse StatusForbidden "unauthorized to modify roles"), cm)
      else
        match mapLookup session.Participants participantID with
        | none => (some (NewErrorResponse StatusNotFound "participant not found"), cm)
        | some participant =>
          let participant' := { participant with Role := newRole }
          let session' := { session with
            Participants := mapInsert session.Participants participantID participant' }
          (none, { cm with sessions := mapInsert cm.sessions sessionID session' })

/-- `ChatManager.ToggleParticipantPin`: toggles the pinned flag; the Go code
performs no authorization check here. -/
def ChatManager.ToggleParticipantPin (cm : ChatManager)
    (sessionID participantID : String) : Option ErrorResponse × ChatManager :=
  match mapLookup cm.sessions sessionID with
  | none => (some (NewErrorResponse StatusNotFound "chat session not found"), cm)
  | some session =>
    match mapLookup session.Participants participantID with
    | none => (some (NewErrorResponse StatusNotFound "participant not found"), cm)
    | some participant =>
      let participant' := { participant with IsPinned := !participant.IsPinned }
      let session' := { session with
        Participants := mapInsert session.Participants participantID participant' }
      (none, { cm with sessions := mapInsert cm.sessions sessionID session' })

/-- `ChatManager.PinParticipant`: byte-for-byte the same logic as
`ToggleParticipantPin` in the source (again no authorization check). -/
def ChatManager.PinParticipant (cm : ChatManager)
    (sessionID participantID : String) : Option ErrorResponse × ChatManager :=
  match mapLookup cm.sessions sessionID with
  | none => (some (NewErrorResponse StatusNotFound "chat session not found"), cm)
  | some session =>
    match mapLookup session.Participants participantID with
    | none => (some (NewErrorResponse StatusNotFound "participant not found"), cm)
    | some participant =>
      let participant' := { participant with IsPinned := !participant.IsPinned }
      let session' := { session with
        Participants := mapInsert session.Participants participantID participant' }
      (none, { cm with sessions := mapInsert cm.sessions sessionID session' })

/-- `ChatManager.AddMessage`.  `saveOk` is the outcome of the external
`SaveSession` persistence call; `genID` and `now` stand for
`utils.GenerateSessionID()` and `utils.GetTimestamp()`.  The returned list
holds the notifications handed to the hub. -/
def ChatManager.AddMessage (cm : ChatManager) (saveOk : Bool) (genID : String)
    (now : Int) (sessionID : String) (message : ChatMessage) :
    Option ErrorResponse × ChatManager × List Notification :=
  match mapLookup cm.sessions sessionID with
  | none => (some (NewErrorResponse StatusNotFound "chat session not found"), cm, [])
  | some session =>
    if (mapLookup session.Participants message.SenderID).isNone then
      (some (NewErrorResponse StatusForbidden "sender is not a participant"), cm, [])
    else if !validMessageType message.Typ then
      (some (NewErrorResponse StatusBadRequest "invalid message type"), cm, [])
    else
      let message' := { message with ID := genID, Timestamp := now }
      let session' := { session with Messages := session.Messages ++ [message'] }
      let cm' := { cm with sessions := mapInsert cm.sessions sessionID session' }
      if !saveOk then
        (some (NewErrorResponse StatusInternalServerError "failed to persist message"), cm', [])
      else
        (none, cm',
          [{ Typ := "message", SessionID := sessionID,
             Data := NotificationData.messageData message' }])

/-- `ChatManager.GetChatMessages`. -/
def ChatManager.GetChatMessages (cm : ChatManager) (sessionID : String) :
    Except ErrorResponse (List ChatMessage) :=
  match mapLookup cm.sessions sessionID with
  | none => Except.error (NewErrorResponse StatusNotFound "chat session not found")
  | some session => Except.ok session.Messages

/-- `ChatManager.TerminateSession`. -/
def ChatManager.TerminateSession (cm : ChatManager) (sessionID : String) :
    Option ErrorResponse × ChatManager :=
  if (mapLookup cm.sessions sessionID).isNone then
    (some (NewErrorResponse StatusNotFound "chat session not found"), cm)
  else
    (none, { cm with sessions := mapErase cm.sessions sessionID })

/-- `ChatManager.ModerateParticipant` (`saveOk` = outcome of `SaveSession`). -/
def ChatManager.ModerateParticipant (cm : ChatManager) (saveOk : Bool)
    (sessionID participantID action : String) :
    Option ErrorResponse × ChatManager × List Notification :=
  match mapLookup cm.sessions sessionID with
  | none => (some (NewErrorResponse StatusNotFound "chat session not found"), cm, [])
  | some session =>
    match mapLookup session.Participants participantID with
    | none => (some (NewErrorResponse StatusNotFound "participant not found"), cm, [])
    | some participant =>
      let updated : Option (List (String × Participant)) :=
        if action == "mute" then
          some (mapInsert session.Participants participantID
            { participant with IsMuted := true })
        else if action == "unmute" then
          some (mapInsert session.Participants participantID
            { participant with IsMuted := false })
        else if action == "remove" then
          some (mapErase session.Participants participantID)
        else
          none
      match updated with
      | none => (some (NewErrorResponse StatusBadRequest "invalid moderation action"), cm, [])
      | some participants' =>
        let session' := { session with Participants := participants' }
        let cm' := { cm with sessions := mapInsert cm.sessions sessionID session' }
        if !saveOk then
          (some (NewErrorResponse StatusInternalServerError
            "failed to persist moderation action"), cm', [])
        else
          (none, cm',
            [{ Typ := "moderation", SessionID := sessionID,
               Data := NotificationData.moderationData participantID action }])

/-! ### call/message_types.go part: AudioLevelDetector -/

/-- `call.AudioLevel`: one windowed amplitude sample (level as a rational,
timestamp in integer milliseconds). -/
structure AudioLevel where
  Level : ℚ
  Timestamp : Int
deriving DecidableEq, Repr

/-- `call.AudioLevelDetector`. -/
structure AudioLevelDetector where
  levels : List AudioLevel
  threshold : ℚ
  windowSize : Int
  isSpeaking : Bool
  lastUpdate : Int
  speakingTime : Int
deriving DecidableEq, Repr

/-- `call.NewAudioLevelDetector`: threshold 0.3, window 500 ms. -/
def NewAudioLevelDetector : AudioLevelDetector :=
  { levels := [], threshold := 3 / 10, windowSize := 500,
    isSpeaking := false, lastUpdate := 0, speakingTime := 0 }

/-- Decoding of one 16-bit little-endian signed sample from two bytes,
as in `int16(binary.LittleEndian.Uint16(...))`. -/
def int16OfBytes (lo hi : Nat) : Int :=
  let v : Nat := lo % 256 + 256 * (hi % 256)
  if v < 32768 then (v : Int) else (v : Int) - 65536

/-- The summation loop of `ProcessAudioLevel`: walks the byte slice two bytes
at a stride, summing absolute decoded amplitudes.  Returns `none` exactly when
the Go loop would index past the end of the slice (odd byte length: the final
`binary.LittleEndian.Uint16(sample[i:])` reads `sample[i+1]` out of bounds and
panics). -/
def sumAbsSamples : List Nat → Option ℚ
  | [] => some 0
  | [_] => none
  | lo :: hi :: rest =>
    (sumAbsSamples rest).map (fun s => |((int16OfBytes lo hi : Int) : ℚ)| + s)

/-- Possible outcomes of the per-block level computation
`sum / float64(len(sample)/2) / 32768.0` in `ProcessAudioLevel`. -/
inductive BlockOutcome where
  | ok (level : ℚ)
  | divByZero
  | outOfBounds
deriving DecidableEq, Repr

/-- Per-block level computation of `ProcessAudioLevel`: `outOfBounds` when the
decode loop panics (odd length), `divByZero` when `len(sample)/2 == 0` (empty
block — in Go the float division 0/0 yields a non-finite NaN level), otherwise
the mean absolute amplitude normalized by 32768. -/
def blockLevel (sample : List Nat) : BlockOutcome :=
  match sumAbsSamples sample with
  | none => BlockOutcome.outOfBounds
  | some s =>
    if sample.length / 2 = 0 then BlockOutcome.divByZero
    else BlockOutcome.ok (s / ((sample.length / 2 : Nat) : ℚ) / 32768)

/-- The eviction loop of `ProcessAudioLevel`: finds the first entry with
`Timestamp.After(cutoff)` and keeps the list from that index on; if no entry is
newer than the cutoff the list is left unchanged (the Go loop never hits its
`break`). -/
def dropOldAux (cutoff : Int) : List AudioLevel → Option (List AudioLevel)
  | [] => none
  | l :: rest => if cutoff < l.Timestamp then some (l :: rest) else dropOldAux cutoff rest

/-- `d.levels` after the eviction loop ran with the given cutoff. -/
def removeOldLevels (cutoff : Int) (ls : List AudioLevel) : List AudioLevel :=
  (dropOldAux cutoff ls).getD ls

/-- `AudioLevelDetector.getAverageLevel`. -/
def AudioLevelDetector.getAverageLevel (ls : List AudioLevel) : ℚ :=
  if ls.length = 0 then 0
  else (ls.map (fun l => l.Level)).sum / ((ls.length : Nat) : ℚ)

/-- `AudioLevelDetector.ProcessAudioLevel`.  `now` stands for the
`time.Now()` calls of one invocation.  Defined (`some`) exactly on blocks
whose level computation is finite and in-bounds (`BlockOutcome.ok`); on the
empty block the Go code appends a non-finite NaN level (not representable
here) and on odd-length blocks it panics. -/
def AudioLevelDetector.ProcessAudioLevel (d : AudioLevelDetector) (now : Int)
    (sample : List Nat) : Option AudioLevelDetector :=
  match blockLevel sample with
  | BlockOutcome.outOfBounds => none
  | BlockOutcome.divByZero => none
  | BlockOutcome.ok level =>
    let levels1 := d.levels ++ [{ Level := level, Timestamp := now }]
    let cutoff := now - d.windowSize
    let levels2 := removeOldLevels cutoff levels1
    let avgLevel := AudioLevelDetector.getAverageLevel levels2
    let wasSpeaking := d.isSpeaking
    let speaking := d.threshold < avgLevel
    some { d with
      levels := levels2
      isSpeaking := speaking
      lastUpdate := if speaking && !wasSpeaking then now else d.lastUpdate
      speakingTime :=
        if !speaking && wasSpeaking then d.speakingTime + (now - d.lastUpdate)
        else d.speakingTime }

/-- `AudioLevelDetector.IsSpeaking`. -/
def AudioLevelDetector.IsSpeaking (d : AudioLevelDetector) : Bool :=
  d.isSpeaking

/-! ### call/recording.go: MediaRecorder -/

/-- An abstract `webrtc.PeerConnection`: the observable effects the embedded
operations have on it (tracks added by `AddTrack`, closing).  Track objects
are identified by the fresh ids handed to `MediaRecorder.Start`. -/
structure PeerConn where
  id : Nat
  tracks : List Nat
  closed : Bool
deriving DecidableEq, Repr

/-- `call.MediaRecorder` (the in-memory byte-buffer writers carry no state
relevant to any operation; `stopRecording` channel closure is the flag
`stopClosed`). -/
structure MediaRecorder where
  audioTrack : Option Nat
  videoTrack : Option Nat
  isRecording : Bool
  stopClosed : Bool
deriving DecidableEq, Repr

/-- `call.NewMediaRecorder`. -/
def NewMediaRecorder : MediaRecorder :=
  { audioTrack := none, videoTrack := none, isRecording := false, stopClosed := false }

/-- `MediaRecorder.Start`.  The four external calls (two track creations, two
`pc.AddTrack`) are abstracted by error flags `errNA errNV errAA errAV`; the
fresh audio and video track objects get ids `nextTrack` and `nextTrack + 1`.
Partial mutations before a failing call persist, as in the source. -/
def MediaRecorder.Start (mr : MediaRecorder) (pc : PeerConn)
    (errNA errNV errAA errAV : Bool) (nextTrack : Nat) :
    Option String × MediaRecorder × PeerConn :=
  if errNA then (some "track error", mr, pc)
  else
    let mr1 := { mr with audioTrack := some nextTrack }
    if errNV then (some "track error", mr1, pc)
    else
      let mr2 := { mr1 with videoTrack := some (nextTrack + 1) }
      if errAA then (some "add track error", mr2, pc)
      else
        let pc1 := { pc with tracks := pc.tracks ++ [nextTrack] }
        if errAV then (some "add track error", mr2, pc1)
        else
          (none, { mr2 with isRecording := true },
            { pc1 with tracks := pc1.tracks ++ [nextTrack + 1] })

/-- `MediaRecorder.Stop`: only acts when `isRecording` (closing the stop
channel once, flipping the flag); otherwise a no-op. -/
def MediaRecorder.Stop (mr : MediaRecorder) : MediaRecorder :=
  if mr.isRecording then { mr with stopClosed := true, isRecording := false }
  else mr

/-! ### call/call.go: data model -/

/-- `call.CallParticipant` (field `PeerConnection` is the abstract peer
connection; `nil` pointers become `none`). -/
structure CallParticipant where
  ID : String
  PeerConnection : Option PeerConn
  Status : String
  IsMuted : Bool
  IsVideoEnabled : Bool
  IsSpeaking : Bool
  NetworkQuality : Int
  JoinTime : Int
  AudioDetector : Option AudioLevelDetector
  MediaRecorder : Option MediaRecorder
deriving DecidableEq, Repr

/-- `call.VideoCall`. -/
def VideoCall : String := "video"

/-- `call.AudioCall`. -/
def AudioCall : String := "audio"

/-- `call.StatusConnected`. -/
def StatusConnected : String := "connected"

/-- `call.CallSession` (field `Type` is rendered `Typ`). -/
structure CallSession where
  ID : String
  Typ : String
  Quality : String
  URL : String
  Participants : List (String × CallParticipant)
  CreatorID : String
  StartTime : Int
  EndTime : Int
  IsRecording : Bool
  IsLivestreaming : Bool
  InLobby : List String
deriving DecidableEq, Repr

/-- `call.CallManager`. -/
structure CallManager where
  sessions : List (String × CallSession)
deriving DecidableEq, Repr

/-- The lobby-removal loop of `JoinCall`: removes the first occurrence of the
participant id from the lobby slice. -/
def removeFirstLobby : List String → String → List String
  | [], _ => []
  | x :: rest, y => if x == y then rest else x :: removeFirstLobby rest y

/-! ### call/call.go: operations -/

/-- `CallManager.JoinCall`.  The two `pc.AddTransceiverFromKind` calls into the
external media capability are abstracted by the outcome flags `videoOk` and
`audioOk`; `now` stands for `utils.GetTimestamp()`.  As in the source, the
participant entry is stored in the session's map before the transceiver
setup runs. -/
def CallManager.JoinCall (cm : CallManager) (videoOk audioOk : Bool)
    (sessionID participantID : String) (pc : PeerConn) (now : Int) :
    Option ErrorResponse × CallManager :=
  match mapLookup cm.sessions sessionID with
  | none => (some (NewErrorResponse StatusNotFound "call session not found"), cm)
  | some session =>
    let lobby' := removeFirstLobby session.InLobby participantID
    let newParticipant : CallParticipant :=
      { ID := participantID, PeerConnection := some pc,
        Status := StatusConnected, IsMuted := false, IsVideoEnabled := false,
        IsSpeaking := false, NetworkQuality := 5, JoinTime := now,
        AudioDetector := none, MediaRecorder := none }
    let session' := { session with
      InLobby := lobby'
      Participants := mapInsert session.Participants participantID newParticipant }
    let cm' := { cm with sessions := mapInsert cm.sessions sessionID session' }
    if session.Typ == VideoCall && !videoOk then
      (some (NewErrorResponse StatusInternalServerError "failed to add video transceiver"), cm')
    else if !audioOk then
      (some (NewErrorResponse StatusInternalServerError "failed to add audio transceiver"), cm')
    else
      (none, cm')

/-- `CallManager.TerminateSession` (closing each participant's peer connection
is an external `Close()`; the entries are dropped with the session). -/
def CallManager.TerminateSession (cm : CallManager) (sessionID : String) :
    Option ErrorResponse × CallManager :=
  if (mapLookup cm.sessions sessionID).isNone then
    (some (NewErrorResponse StatusNotFound "call session not found"), cm)
  else
    (none, { cm with sessions := mapErase cm.sessions sessionID })

/-- `CallManager.GetCallSession`. -/
def CallManager.GetCallSession (cm : CallManager) (sessionID : String) :
    Except ErrorResponse CallSession :=
  match mapLookup cm.sessions sessionID with
  | none => Except.error (NewErrorResponse StatusNotFound "call session not found")
  | some session => Except.ok session

/-- `CallManager.StartRecording`, with `MediaRecorder.Start`'s external-call
outcomes threaded through.  Result `none` models the Go panic that occurs when
the participant's `PeerConnection` is a nil pointer (dereferenced by
`AddTrack`); otherwise `some (err?, cm')` where partial recorder/track
mutations persist even on error, as in the source. -/
def CallManager.StartRecording (cm : CallManager)
    (errNA errNV errAA errAV : Bool) (nextTrack : Nat)
    (sessionID participantID : String) :
    Option (Option ErrorResponse × CallManager) :=
  match mapLookup cm.sessions sessionID with
  | none => some (some (NewErrorResponse StatusNotFound "call session not found"), cm)
  | some session =>
    match mapLookup session.Participants participantID with
    | none => some (some (NewErrorResponse StatusNotFound "participant not found"), cm)
    | some participant =>
      let mr0 := participant.MediaRecorder.getD NewMediaRecorder
      match participant.PeerConnection with
      | none => none
      | some pc =>
        let res := mr0.Start pc errNA errNV errAA errAV nextTrack
        let participant' := { participant with
          MediaRecorder := some res.2.1, PeerConnection := some res.2.2 }
        let session' := { session with
          Participants := mapInsert session.Participants participantID participant' }
        let cm' := { cm with sessions := mapInsert cm.sessions sessionID session' }
        match res.1 with
        | some _ =>
          some (some (NewErrorResponse StatusInternalServerError "failed to start recording"), cm')
        | none => some (none, cm')

/-- `CallManager.StopRecording`: only calls `Stop` when the participant has a
recorder; a missing recorder is a silent success. -/
def CallManager.StopRecording (cm : CallManager)
    (sessionID participantID : String) : Option ErrorResponse × CallManager :=
  match mapLookup cm.sessions sessionID with
  | none => (some (NewErrorResponse StatusNotFound "call session not found"), cm)
  | some session =>
    match mapLookup session.Participants participantID with
    | none => (some (NewErrorResponse StatusNotFound "participant not found"), cm)
    | some participant =>
      match participant.MediaRecorder with
      | none => (none, cm)
      | some mr =>
        let participant' := { participant with MediaRecorder := some mr.Stop }
        let session' := { session with
          Participants := mapInsert session.Participants participantID participant' }
        (none, { cm with sessions := mapInsert cm.sessions sessionID session' })

/-! ### chat/notification.go: NotificationHub -/

/-- A websocket connection as seen by the hub: its remote-address key and
whether `WriteJSON` on it succeeds. -/
structure HubConn where
  remoteAddr : String
  writeOk : Bool
deriving DecidableEq, Repr

/-- One command consumed by the hub's `Run` loop (arrival on the `Register`,
`Unregister` or `Broadcast` channel). -/
inductive HubCmd where
  | register (c : HubConn)
  | unregister (c : HubConn)
  | broadcast (n : Notification)
deriving DecidableEq, Repr

/-- One iteration of `NotificationHub.Run`: processes one command against the
`clients` map and returns the new map together with the list of successful
`WriteJSON` deliveries `(remoteAddr, notification)`.  On broadcast, a failed
write closes and drops that client but the other deliveries still happen. -/
def NotificationHub.RunStep (clients : List (String × HubConn)) :
    HubCmd → List (String × HubConn) × List (String × Notification)
  | HubCmd.register c => (mapInsert clients c.remoteAddr c, [])
  | HubCmd.unregister c =>
    if (mapLookup clients c.remoteAddr).isSome then (mapErase clients c.remoteAddr, [])
    else (clients, [])
  | HubCmd.broadcast n =>
    (clients.filter (fun kc => kc.2.writeOk),
      clients.filterMap (fun kc => if kc.2.writeOk then some (kc.1, n) else none))

/-! ### signaling (SignalingServer.HandleWebSocket read loop) -/

/-- A decoded signaling envelope (`map[string]interface{}` restricted to the
one field the router reads). -/
structure SigMsg where
  targetPeerId : Option String
deriving DecidableEq, Repr

/-- Classification of one `conn.ReadMessage()` round in the read loop:
the read failed, the payload failed `json.Unmarshal`, or a message was
decoded. -/
inductive InboundEvent where
  | readFailure
  | malformedJSON
  | valid (msg : SigMsg)
deriving DecidableEq, Repr

/-- What one iteration of the read loop does next. -/
inductive LoopAction where
  | breakExit
  | panicExit
  | continueLoop
deriving DecidableEq, Repr

/-- One iteration of `SignalingServer.HandleWebSocket`'s `for` loop: a read
error breaks out of the loop; an undecodable payload reaches
`log.Panicln`, which raises a panic, so the `continue` statement after it
never runs and the loop ends abnormally; a decoded message is dispatched to
`handleSignalMessage` and the loop continues. -/
def SignalingServer.handleWebSocketStep : InboundEvent → LoopAction
  | InboundEvent.readFailure => LoopAction.breakExit
  | InboundEvent.malformedJSON => LoopAction.panicExit
  | InboundEvent.valid _ => LoopAction.continueLoop

/-! ### Concrete fixtures used by counterexamples and witnesses -/

/-- A chat participant with the admin role. -/
def demoAdmin : Participant :=
  { ID := "a", Role := RoleAdmin, IsPinned := false, IsMuted := false, JoinTime := 0 }

/-- A chat participant with the plain user role. -/
def demoUser : Participant :=
  { ID := "u", Role := RoleUser, IsPinned := false, IsMuted := false, JoinTime := 0 }

/-- A chat session with an admin and a user. -/
def demoChatSession : ChatSession :=
  { ID := "s", Participants := [("a", demoAdmin), ("u", demoUser)],
    StartTime := 0, EndTime := 100, Messages := [], IsGroup := true }

/-- A chat manager holding `demoChatSession`. -/
def demoChatManager : ChatManager := { sessions := [("s", demoChatSession)] }

/-- A chat session whose only participant is a plain user (no admin at all). -/
def soloUserSession : ChatSession :=
  { ID := "s2", Participants := [("u", demoUser)],
    StartTime := 0, EndTime := 100, Messages := [], IsGroup := false }

/-- A chat manager holding `soloUserSession`. -/
def soloUserManager : ChatManager := { sessions := [("s2", soloUserSession)] }

/-- A valid text message sent by the user participant. -/
def demoMsg : ChatMessage :=
  { ID := "", SenderID := "u", ReceiverID := "a", Typ := "text", Message := "hi",
    Attachments := [], Reactions := [], Timestamp := 0, IsEdited := false,
    IsDeleted := false }

/-- The creator's peer connection in the demo call. -/
def demoPeer : PeerConn := { id := 0, tracks := [], closed := false }

/-- A second peer connection, for a joining participant. -/
def demoPeer2 : PeerConn := { id := 1, tracks := [], closed := false }

/-- The creator of the demo call session. -/
def demoCallParticipant : CallParticipant :=
  { ID := "a", PeerConnection := some demoPeer, Status := StatusConnected,
    IsMuted := false, IsVideoEnabled := false, IsSpeaking := false,
    NetworkQuality := 5, JoinTime := 0, AudioDetector := none, MediaRecorder := none }

/-- A video call session with the creator as its only participant. -/
def demoCallSession : CallSession :=
  { ID := "c", Typ := VideoCall, Quality := "hd", URL := "/call/x",
    Participants := [("a", demoCallParticipant)], CreatorID := "a",
    StartTime := 0, EndTime := 100, IsRecording := false,
    IsLivestreaming := false, InLobby := [] }

/-- A call manager holding `demoCallSession`. -/
def demoCallManager : CallManager := { sessions := [("c", demoCallSession)] }

/-- A recorder that has already been started (track ids 0 and 1). -/
def startedRecorder : MediaRecorder :=
  { audioTrack := some 0, videoTrack := some 1, isRecording := true,
    stopClosed := false }

/-- The demo call creator with an already-started recorder. -/
def demoCallParticipantRec : CallParticipant :=
  { demoCallParticipant with MediaRecorder := some startedRecorder }

/-- The demo call session whose creator has an already-started recorder. -/
def demoCallSessionRec : CallSession :=
  { demoCallSession with Participants := [("a", demoCallParticipantRec)] }

/-- A call manager holding `demoCallSessionRec`. -/
def demoCallManagerRec : CallManager := { sessions := [("c", demoCallSessionRec)] }

/-- A healthy hub connection. -/
def demoHubConn : HubConn := { remoteAddr := "h", writeOk := true }

/-- A sample notification. -/
def demoNotification : Notification :=
  { Typ := "message", SessionID := "s",
    Data := NotificationData.moderationData "u" "mute" }

/-! ### Shared lemmas about the Go-map model -/

theorem mapErase_key_ne {α : Type} (m : List (String × α)) (k : String) :
    ∀ e ∈ mapErase m k, (e.1 == k) = false := by
  intro e he
  unfold mapErase at he
  have h := List.mem_filter.mp he
  simpa using h.2

theorem mapLookup_mapErase_self {α : Type} (m : List (String × α)) (k : String) :
    mapLookup (mapErase m k) k = none := by
  have h : (mapErase m k).find? (fun e => e.1 == k) = none :=
    List.find?_eq_none.mpr (fun x hx => by simp [mapErase_key_ne m k x hx])
  simp [mapLookup, h]

theorem mapLookup_mapInsert_self {α : Type} (m : List (String × α)) (k : String)
    (v : α) : mapLookup (mapInsert m k v) k = some v := by
  have h : (mapErase m k).find? (fun e => e.1 == k) = none :=
    List.find?_eq_none.mpr (fun x hx => by simp [mapErase_key_ne m k x hx])
  simp [mapLookup, mapInsert, List.find?_append, h, List.find?]

theorem mapLookup_eq_none_iff {α : Type} (m : List (String × α)) (k : String) :
    mapLookup m k = none ↔ ∀ e ∈ m, (e.1 == k) = false := by
  simp [mapLookup, List.find?_eq_none]

/-! ### Claim theorems -/

/-- C10: one inbound signaling message whose payload is not valid JSON drives
the read loop of `SignalingServer.HandleWebSocket` into `log.Panicln`, which
panics, so the loop ends abnormally instead of dropping the message and
continuing (the `continue` after the `Panicln` is dead); a read error, by
contrast, breaks out of the loop normally, and only a decoded message lets
the loop continue. -/
theorem signaling_malformed_message_panics :
    SignalingServer.handleWebSocketStep InboundEvent.malformedJSON = LoopAction.panicExit
    ∧ SignalingServer.handleWebSocketStep InboundEvent.readFailure = LoopAction.breakExit
    ∧ LoopAction.panicExit ≠ LoopAction.continueLoop
    ∧ LoopAction.panicExit ≠ LoopAction.breakExit := by
  refine ⟨rfl, rfl, ?_, ?_⟩ <;> intro h <;> cases h

theorem sumAbsSamples_eq_none : ∀ s : List Nat, sumAbsSamples s = none ↔ s.length % 2 = 1
  | [] => by simp [sumAbsSamples]
  | [x] => by simp [sumAbsSamples]
  | lo :: hi :: rest => by
    have ih := sumAbsSamples_eq_none rest
    simp only [sumAbsSamples, Option.map_eq_none', List.length_cons, ih]
    omega

/-- C9: the per-block computation of `ProcessAudioLevel` is total exactly on
non-empty blocks of even byte length: an odd-length block makes the decode of
the final 16-bit sample read past the end of the slice (out of bounds), and
the empty block makes the divisor `len(sample)/2` zero (in Go this 0/0 float
division produces a non-finite level that is appended to the window). -/
theorem processAudioLevel_total_iff_nonempty_even (sample : List Nat) :
    (blockLevel sample = BlockOutcome.outOfBounds ↔ sample.length % 2 = 1)
    ∧ (blockLevel sample = BlockOutcome.divByZero ↔ sample = [])
    ∧ ((∃ q, blockLevel sample = BlockOutcome.ok q)
        ↔ (sample ≠ [] ∧ sample.length % 2 = 0)) := by
  have hnone := sumAbsSamples_eq_none sample
  cases h : sumAbsSamples sample with
  | none =>
    have hodd : sample.length % 2 = 1 := hnone.mp h
    refine ⟨by simp [blockLevel, h, hodd], ?_, ?_⟩
    · simp only [blockLevel, h]
      constructor
      · intro hc; cases hc
      · rintro rfl; simp at hodd
    · simp only [blockLevel, h]
      constructor
      · rintro ⟨q, hq⟩; cases hq
      · rintro ⟨-, heven⟩; omega
  | some v =>
    have hne : sumAbsSamples sample ≠ none := by simp [h]
    have heven : sample.length % 2 = 0 := by
      rcases Nat.mod_two_eq_zero_or_one sample.length with h2 | h2
      · exact h2
      · exact absurd (hnone.mpr h2) hne
    have hbl : blockLevel sample
        = (if sample.length / 2 = 0 then BlockOutcome.divByZero
           else BlockOutcome.ok (v / ((sample.length / 2 : Nat) : ℚ) / 32768)) := by
      simp [blockLevel, h]
    by_cases hz : sample.length / 2 = 0
    · have hlen : sample.length = 0 := by omega
      have hnil : sample = [] := List.length_eq_zero.mp hlen
      rw [hbl, if_pos hz]
      refine ⟨?_, by simp [hnil], ?_⟩
      · constructor
        · intro hc; cases hc
        · intro hc; omega
      · constructor
        · rintro ⟨q, hq⟩; cases hq
        · rintro ⟨hc, -⟩; exact absurd hnil hc
    · have hnil : sample ≠ [] := by
        intro hc; rw [hc] at hz; simp at hz
      rw [hbl, if_neg hz]
      refine ⟨?_, ?_, ?_⟩
      · constructor
        · intro hc; cases hc
        · intro hc; omega
      · constructor
        · intro hc; cases hc
        · intro hc; exact absurd hc hnil
      · constructor
        · intro _; exact ⟨hnil, heven⟩
        · intro _; exact ⟨_, rfl⟩

/-- C7: a successful `TerminateSession` removes the session, so an immediate
`Get` of the same id returns NotFound, and a second `TerminateSession` of the
same id also returns NotFound (leaving the registry unchanged) rather than an
error on the first call — the statements hold for both the chat and the call
registry, so the expiry timer's later delete of an already-absent id is a
NotFound no-op, not a propagated failure. -/
theorem terminate_then_get_notFound (ccm : ChatManager) (calm : CallManager)
    (sid csid : String)
    (h1 : (ccm.TerminateSession sid).1 = none)
    (h2 : (calm.TerminateSession csid).1 = none) :
    ((ccm.TerminateSession sid).2.GetChatMessages sid
       = Except.error (NewErrorResponse StatusNotFound "chat session not found"))
    ∧ ((ccm.TerminateSession sid).2.TerminateSession sid
       = (some (NewErrorResponse StatusNotFound "chat session not found"),
          (ccm.TerminateSession sid).2))
    ∧ ((calm.TerminateSession csid).2.GetCallSession csid
       = Except.error (NewErrorResponse StatusNotFound "call session not found"))
    ∧ ((calm.TerminateSession csid).2.TerminateSession csid
       = (some (NewErrorResponse StatusNotFound "call session not found"),
          (calm.TerminateSession csid).2)) := by
  by_cases hc : (mapLookup ccm.sessions sid).isNone
  · simp [ChatManager.TerminateSession, hc] at h1
  · by_cases hd : (mapLookup calm.sessions csid).isNone
    · simp [CallManager.TerminateSession, hd] at h2
    · refine ⟨?_, ?_, ?_, ?_⟩ <;>
        simp [ChatManager.TerminateSession, CallManager.TerminateSession, hc, hd,
          ChatManager.GetChatMessages, CallManager.GetCallSession,
          mapLookup_mapErase_self]

/-- C7 witness: terminating the demo chat session makes an immediate `Get`
return NotFound. -/
theorem terminate_then_get_notFound_witness :
    (demoChatManager.TerminateSession "s").2.GetChatMessages "s"
      = Except.error (NewErrorResponse StatusNotFound "chat session not found") :=
  (terminate_then_get_notFound demoChatManager demoCallManager "s" "c"
    (by decide) (by decide)).1

/-- C2 counterexample: in a session whose only participant is a plain user
(so no admin exists anywhere in the session), `ToggleParticipantPin` performs
no authorization check — it returns success (`nil` error, never Forbidden)
and flips the user's pinned flag, refuting the claim that the pin toggle
checks `role == admin` before mutating and returns Forbidden on failure. -/
theorem togglePin_no_auth_cex :
    (soloUserManager.ToggleParticipantPin "s2" "u").1 = none
    ∧ ((mapLookup (soloUserManager.ToggleParticipantPin "s2" "u").2.sessions "s2").map
        (fun s => (mapLookup s.Participants "u").map
          (fun p => (p.Role, p.IsPinned)))) = some (some (RoleUser, true)) := by
  decide

/-- C2 amended: the pin-toggle operations (`ToggleParticipantPin` and the
identical `PinParticipant`) perform no authorization check at all: they
return NotFound when the session or the participant is missing (their only
possible error status), and otherwise unconditionally toggle the pinned flag
and return success; Forbidden is never returned by them — the
`role == admin` authorization check exists only in `ModifyParticipantRole`,
which returns Forbidden when the acting participant is missing or not an
admin. -/
theorem togglePin_no_authorization (cm : ChatManager) (sid pid aid newRole : String) :
    (cm.PinParticipant sid pid = cm.ToggleParticipantPin sid pid)
    ∧ (∀ e, (cm.ToggleParticipantPin sid pid).1 = some e → e.StatusCode = StatusNotFound)
    ∧ (∀ s p, mapLookup cm.sessions sid = some s →
        mapLookup s.Participants pid = some p →
        (cm.ToggleParticipantPin sid pid).1 = none
        ∧ (∃ s', mapLookup (cm.ToggleParticipantPin sid pid).2.sessions sid = some s'
            ∧ mapLookup s'.Participants pid = some { p with IsPinned := !p.IsPinned }))
    ∧ (∀ s a, mapLookup cm.sessions sid = some s →
        mapLookup s.Participants aid = some a → a.Role ≠ RoleAdmin →
        (cm.ModifyParticipantRole sid aid pid newRole).1
          = some (NewErrorResponse StatusForbidden "unauthorized to modify roles")) := by
  refine ⟨rfl, ?_, ?_, ?_⟩
  · intro e he
    cases hs : mapLookup cm.sessions sid with
    | none =>
      simp [ChatManager.ToggleParticipantPin, hs, NewErrorResponse] at he
      simp [← he, StatusNotFound]
    | some s =>
      cases hp : mapLookup s.Participants pid with
      | none =>
        simp [ChatManager.ToggleParticipantPin, hs, hp, NewErrorResponse] at he
        simp [← he, StatusNotFound]
      | some p =>
        simp [ChatManager.ToggleParticipantPin, hs, hp] at he
  · intro s p hs hp
    refine ⟨by simp [ChatManager.ToggleParticipantPin, hs, hp], ?_⟩
    refine ⟨{ s with Participants :=
      (mapInsert s.Participants pid ({ p with IsPinned := !p.IsPinned })) }, ?_, ?_⟩
    · simp [ChatManager.ToggleParticipantPin, hs, hp, mapLookup_mapInsert_self]
    · exact mapLookup_mapInsert_self ..
  · intro s a hs ha hrole
    simp [ChatManager.ModifyParticipantRole, hs, ha, hrole]

/-- C2 amended witness: on the demo session, toggling the user's pin succeeds
with no error. -/
theorem togglePin_no_authorization_witness :
    (demoChatManager.ToggleParticipantPin "s" "u").1 = none :=
  ((togglePin_no_authorization demoChatManager "s" "u" "a" "user").2.2.1
    demoChatSession demoUser (by decide) (by decide)).1

/-- C5: when the external persistence step fails after the message has been
appended, `AddMessage` reports an Internal (500) error to the caller but the
in-memory message sequence of the session still ends with the newly appended
(id- and timestamp-stamped) message — the append is not rolled back. -/
theorem addMessage_persist_failure_keeps_append (cm : ChatManager)
    (sid genID : String) (now : Int) (msg : ChatMessage) (s : ChatSession)
    (hs : mapLookup cm.sessions sid = some s)
    (hsender : (mapLookup s.Participants msg.SenderID).isNone = false)
    (htype : validMessageType msg.Typ = true) :
    ((cm.AddMessage false genID now sid msg).1
       = some (NewErrorResponse StatusInternalServerError "failed to persist message"))
    ∧ (∃ s', mapLookup (cm.AddMessage false genID now sid msg).2.1.sessions sid = some s'
        ∧ s'.Messages = s.Messages ++ [{ msg with ID := genID, Timestamp := now }]) := by
  refine ⟨?_, ?_⟩
  · simp [ChatManager.AddMessage, hs, hsender, htype]
  · refine ⟨{ s with Messages :=
      s.Messages ++ [{ msg with ID := genID, Timestamp := now }] }, ?_, ?_⟩
    · simp [ChatManager.AddMessage, hs, hsender, htype, mapLookup_mapInsert_self]
    · rfl

/-- C5 witness: a valid message from the demo user with persistence failing
yields the Internal error while the message is in memory. -/
theorem addMessage_persist_failure_keeps_append_witness :
    (demoChatManager.AddMessage false "m1" 7 "s" demoMsg).1
      = some (NewErrorResponse StatusInternalServerError "failed to persist message") :=
  (addMessage_persist_failure_keeps_append demoChatManager "s" "m1" 7 demoMsg
    demoChatSession (by decide) (by decide) (by decide)).1

/-- C6: `AddMessage` whose sender id is not in the session's participant map
returns Forbidden and leaves the manager (hence the message sequence)
unchanged; in particular, after `ModerateParticipant` with action "remove"
deletes a participant, a message from that same sender is rejected with
Forbidden and nothing is appended — whatever the persistence outcomes were. -/
theorem addMessage_nonparticipant_forbidden (cm : ChatManager)
    (sid pid genID : String) (now : Int) (saveOk saveOk2 : Bool)
    (msg : ChatMessage) (s : ChatSession)
    (hs : mapLookup cm.sessions sid = some s) :
    (mapLookup s.Participants msg.SenderID = none →
      cm.AddMessage saveOk2 genID now sid msg
        = (some (NewErrorResponse StatusForbidden "sender is not a participant"), cm, []))
    ∧ (∀ p, mapLookup s.Participants pid = some p → msg.SenderID = pid →
        (cm.ModerateParticipant saveOk sid pid "remove").2.1.AddMessage
            saveOk2 genID now sid msg
          = (some (NewErrorResponse StatusForbidden "sender is not a participant"),
             (cm.ModerateParticipant saveOk sid pid "remove").2.1, [])) := by
  constructor
  · intro hnp
    simp [ChatManager.AddMessage, hs, hnp]
  · intro p hp hsender
    have hmod : (cm.ModerateParticipant saveOk sid pid "remove").2.1
        = { cm with sessions :=
            mapInsert cm.sessions sid { s with Participants := mapErase s.Participants pid } } := by
      cases saveOk <;> simp [ChatManager.ModerateParticipant, hs, hp]
    rw [hmod]
    simp [ChatManager.AddMessage, mapLookup_mapInsert_self, hsender,
      mapLookup_mapErase_self]

/-- C6 witness: on the demo session, removing the user participant and then
sending a message from that same sender yields Forbidden with no append. -/
theorem addMessage_nonparticipant_forbidden_witness :
    (demoChatManager.ModerateParticipant true "s" "u" "remove").2.1.AddMessage
        true "m1" 7 "s" demoMsg
      = (some (NewErrorResponse StatusForbidden "sender is not a participant"),
         (demoChatManager.ModerateParticipant true "s" "u" "remove").2.1, []) :=
  (addMessage_nonparticipant_forbidden demoChatManager "s" "u" "m1" 7 true true
    demoMsg demoChatSession (by decide)).2 demoUser (by decide) (by decide)

/-- C1 counterexample: joining the demo video call when the external video
transceiver setup fails returns the Internal error, yet the joining
participant's entry is present in the session's participant map afterwards —
refuting the claim that no partial Participant is left behind (the insertion
happens before capability setup and is not rolled back). -/
theorem joinCall_partial_participant_cex :
    ((demoCallManager.JoinCall false true "c" "b" demoPeer2 5).1
       = some (NewErrorResponse StatusInternalServerError "failed to add video transceiver"))
    ∧ ((mapLookup (demoCallManager.JoinCall false true "c" "b" demoPeer2 5).2.sessions "c").map
        (fun s => (mapLookup s.Participants "b").isSome)) = some true := by
  decide

/-- C1 amended: when the external media-capability setup fails (the video
transceiver of a video call, or the audio transceiver), `JoinCall` returns an
Internal (500) error — but the Participant entry, which was inserted into the
session's participant map before the capability setup ran, remains in the map:
the join is not rolled back. -/
theorem joinCall_failure_leaves_participant (cm : CallManager)
    (videoOk audioOk : Bool) (sid pid : String) (pc : PeerConn) (now : Int)
    (s : CallSession) (hs : mapLookup cm.sessions sid = some s)
    (hfail : (s.Typ = VideoCall ∧ videoOk = false) ∨ audioOk = false) :
    ((cm.JoinCall videoOk audioOk sid pid pc now).1.map ErrorResponse.StatusCode
       = some StatusInternalServerError)
    ∧ ((mapLookup (cm.JoinCall videoOk audioOk sid pid pc now).2.sessions sid).map
        (fun s' => (mapLookup s'.Participants pid).isSome)) = some true := by
  by_cases hv : (s.Typ == VideoCall && !videoOk) = true
  · constructor
    · simp [CallManager.JoinCall, hs, hv, NewErrorResponse, StatusInternalServerError]
    · simp [CallManager.JoinCall, hs, hv, mapLookup_mapInsert_self]
  · have haud : audioOk = false := by
      rcases hfail with ⟨ht, hvf⟩ | haud
      · exfalso
        apply hv
        simp [ht, hvf]
      · exact haud
    constructor
    · simp [CallManager.JoinCall, hs, hv, haud, NewErrorResponse,
        StatusInternalServerError]
    · simp [CallManager.JoinCall, hs, hv, haud, mapLookup_mapInsert_self]

/-- C1 amended witness: joining the demo video call with a failing video
transceiver setup yields a 500-class error. -/
theorem joinCall_failure_leaves_participant_witness :
    ((demoCallManager.JoinCall false true "c" "b" demoPeer2 5).1.map
       ErrorResponse.StatusCode = some StatusInternalServerError) :=
  (joinCall_failure_leaves_participant demoCallManager false true "c" "b"
    demoPeer2 5 demoCallSession (by decide) (Or.inl ⟨by decide, rfl⟩)).1

/-- C4 counterexample: starting recording for the demo participant twice in a
row (all external track operations succeeding) has the second call return
success — but the second call is not a no-op: the manager state after it
differs from the state after the first call (two further tracks are added to
the peer connection and the recorder's tracks are re-created), refuting the
"no further state change" part of the claim. -/
theorem startRecording_not_idempotent_cex :
    ((demoCallManager.StartRecording false false false false 0 "c" "a").bind
      (fun r1 => (r1.2.StartRecording false false false false 2 "c" "a").map
        (fun r2 => (r2.1.isNone, decide (r2.2 = r1.2))))) = some (true, false) := by
  decide

/-- C4 amended: stopping is idempotent as claimed — `StopRecording` on a
participant whose recorder was never created is a strict no-op success, and on
an already-stopped recorder it succeeds leaving the recorder unchanged — but
`StartRecording` on an already-started recorder is NOT a no-op: it does return
success, yet `MediaRecorder.Start` runs again unconditionally, re-creating
both tracks (fresh ids) and appending two further tracks to the participant's
peer connection. -/
theorem recording_idempotence_amended (cm : CallManager) (sid pid : String)
    (s : CallSession) (p : CallParticipant)
    (hs : mapLookup cm.sessions sid = some s)
    (hp : mapLookup s.Participants pid = some p) :
    (p.MediaRecorder = none → cm.StopRecording sid pid = (none, cm))
    ∧ (∀ mr, p.MediaRecorder = some mr → mr.isRecording = false →
        (cm.StopRecording sid pid).1 = none
        ∧ ((mapLookup (cm.StopRecording sid pid).2.sessions sid).map
            (fun s' => (mapLookup s'.Participants pid).map
              (fun p' => p'.MediaRecorder))) = some (some (some mr)))
    ∧ (∀ mr pc nextTrack, p.MediaRecorder = some mr → mr.isRecording = true →
        p.PeerConnection = some pc →
        ((cm.StartRecording false false false false nextTrack sid pid).map
            (fun r => r.1)) = some none
        ∧ ((cm.StartRecording false false false false nextTrack sid pid).map
            (fun r => (mapLookup r.2.sessions sid).map
              (fun s' => (mapLookup s'.Participants pid).map
                (fun p' => (p'.PeerConnection, p'.MediaRecorder)))))
          = some (some (some
              (some { pc with tracks := pc.tracks ++ [nextTrack, nextTrack + 1] },
               some { audioTrack := some nextTrack, videoTrack := some (nextTrack + 1),
                      isRecording := true, stopClosed := mr.stopClosed })))) := by
  refine ⟨?_, ?_, ?_⟩
  · intro hmr
    simp [CallManager.StopRecording, hs, hp, hmr]
  · intro mr hmr hrec
    constructor
    · simp [CallManager.StopRecording, hs, hp, hmr]
    · simp [CallManager.StopRecording, hs, hp, hmr, MediaRecorder.Stop, hrec,
        mapLookup_mapInsert_self]
  · intro mr pc nextTrack hmr hrec hpc
    constructor
    · simp [CallManager.StartRecording, hs, hp, hmr, hpc, MediaRecorder.Start]
    · simp [CallManager.StartRecording, hs, hp, hmr, hpc, MediaRecorder.Start,
        mapLookup_mapInsert_self]

/-- C4 amended witness: for a participant with a started recorder in a concrete
manager, a second `StartRecording` returns success (no error). -/
theorem recording_idempotence_amended_witness :
    (demoCallManagerRec.StartRecording false false false false 2 "c" "a").map
      (fun r => r.1) = some none :=
  ((recording_idempotence_amended demoCallManagerRec "c" "a" demoCallSessionRec
      demoCallParticipantRec (by decide) (by decide)).2.2
    startedRecorder demoPeer 2 (by decide) (by decide) (by decide)).1

theorem dropOldAux_all_old (c : Int) (y : AudioLevel) :
    ∀ xs : List AudioLevel, (∀ l ∈ xs, ¬ c < l.Timestamp) → c < y.Timestamp →
    dropOldAux c (xs ++ [y]) = some [y]
  | [], _, hy => by simp [dropOldAux, hy]
  | x :: xs, hxs, hy => by
    have hx : ¬ c < x.Timestamp := hxs x (by simp)
    simp only [List.cons_append, dropOldAux, if_neg hx]
    exact dropOldAux_all_old c y xs (fun l hl => hxs l (by simp [hl])) hy

/-- C3 counterexample: a block of all-zero samples does NOT always yield
`IsSpeaking() == false`.  A fresh detector first processes a full-scale block
at t = 1000 ms (level 1), then an all-zero block (`[0, 0]`, whose absolute
amplitude sum is 0) at t = 1200 ms: the first entry is still inside the
500 ms window, so the window average is 1/2 > 0.3 and `IsSpeaking()` is true
immediately after the zero block was processed. -/
theorem audio_zero_block_cex :
    sumAbsSamples [0, 0] = some 0
    ∧ ((NewAudioLevelDetector.ProcessAudioLevel 1000 [0, 128]).bind
        (fun d => d.ProcessAudioLevel 1200 [0, 0])).map AudioLevelDetector.IsSpeaking
      = some true := by
  constructor
  · norm_num [sumAbsSamples, int16OfBytes]
  · norm_num [AudioLevelDetector.ProcessAudioLevel, blockLevel, sumAbsSamples,
      int16OfBytes, removeOldLevels, dropOldAux, AudioLevelDetector.getAverageLevel,
      NewAudioLevelDetector, AudioLevelDetector.IsSpeaking]
    rw [if_neg (by simp)]
    norm_num

/-- C3 amended: processing a non-empty all-zero block (absolute amplitude sum
0, even length) yields `IsSpeaking() == false` provided every entry already in
the detector's window is older than `now - window` (in particular for a fresh
detector, or one idle for longer than the 500 ms window): the zero level is
then the only retained entry, so the window average is 0 ≤ threshold.  When a
recent above-threshold entry is still inside the window this fails (see the
counterexample): the windowed average, not the latest block, decides the
state. -/
theorem processAudioLevel_zero_block_stale_window (d : AudioLevelDetector)
    (now : Int) (sample : List Nat)
    (hthr : d.threshold = 3 / 10) (hwin : d.windowSize = 500)
    (hold : ∀ l ∈ d.levels, l.Timestamp ≤ now - 500)
    (hz : sumAbsSamples sample = some 0) (hne : sample ≠ []) :
    (d.ProcessAudioLevel now sample).map AudioLevelDetector.IsSpeaking
      = some false := by
  obtain ⟨lo, hi, rest, rfl⟩ : ∃ lo hi rest, sample = lo :: hi :: rest := by
    cases sample with
    | nil => exact absurd rfl hne
    | cons a t =>
      cases t with
      | nil => simp [sumAbsSamples] at hz
      | cons b r => exact ⟨a, b, r, rfl⟩
  have hk : (lo :: hi :: rest).length / 2 ≠ 0 := by
    simp only [List.length_cons]
    omega
  have hbl : blockLevel (lo :: hi :: rest) = BlockOutcome.ok 0 := by
    simp only [blockLevel, hz]
    rw [if_neg (by simp only [List.length_cons]; omega)]
    norm_num
  have hdrop : dropOldAux (now - d.windowSize)
      (d.levels ++ [{ Level := 0, Timestamp := now }]) = some [{ Level := 0, Timestamp := now }] := by
    apply dropOldAux_all_old
    · intro l hl
      have := hold l hl
      rw [hwin]
      omega
    · rw [hwin]
      show now - 500 < now
      omega
  simp only [AudioLevelDetector.ProcessAudioLevel, hbl, removeOldLevels, hdrop,
    Option.getD_some, Option.map_some']
  simp [AudioLevelDetector.IsSpeaking, AudioLevelDetector.getAverageLevel, hthr]
  norm_num

/-- C3 amended witness: a fresh detector processing the all-zero block
`[0, 0]` reports not speaking. -/
theorem processAudioLevel_zero_block_stale_window_witness :
    (NewAudioLevelDetector.ProcessAudioLevel 1000 [0, 0]).map
      AudioLevelDetector.IsSpeaking = some false :=
  processAudioLevel_zero_block_stale_window NewAudioLevelDetector 1000 [0, 0]
    rfl rfl (by simp [NewAudioLevelDetector])
    (by norm_num [sumAbsSamples, int16OfBytes]) (by simp)

/-- C8: in the hub's command loop, once a `Register(h)` command has been
processed, processing a `Broadcast(n)` command delivers exactly one copy of
`n` to `h`'s endpoint (register replaces any previous entry under the same
remote-address key, so there is exactly one matching subscriber, and the loop
writes the notification once to each subscriber); and once an `Unregister(h)`
command has been processed, a subsequently processed `Broadcast` delivers
nothing to `h`'s endpoint. -/
theorem hub_register_broadcast_unregister (st : List (String × HubConn))
    (h : HubConn) (n : Notification) (hw : h.writeOk = true) :
    ((NotificationHub.RunStep (NotificationHub.RunStep st (HubCmd.register h)).1
        (HubCmd.broadcast n)).2.countP
      (fun d => decide (d = (h.remoteAddr, n))) = 1)
    ∧ ((NotificationHub.RunStep (NotificationHub.RunStep st (HubCmd.unregister h)).1
        (HubCmd.broadcast n)).2.filter (fun d => d.1 == h.remoteAddr) = []) := by
  constructor
  · simp only [NotificationHub.RunStep, mapInsert]
    rw [List.filterMap_append, List.countP_append]
    have h1 : (List.filterMap
        (fun kc : String × HubConn => if kc.2.writeOk then some (kc.1, n) else none)
        [(h.remoteAddr, h)]) = [(h.remoteAddr, n)] := by
      simp [hw]
    rw [h1]
    have h0 : (List.filterMap
        (fun kc : String × HubConn => if kc.2.writeOk then some (kc.1, n) else none)
        (mapErase st h.remoteAddr)).countP
        (fun d => decide (d = (h.remoteAddr, n))) = 0 := by
      rw [List.countP_eq_zero]
      intro d hd
      obtain ⟨kc, hkc, hfk⟩ := List.mem_filterMap.mp hd
      have hkey := mapErase_key_ne st h.remoteAddr kc hkc
      by_cases hcw : kc.2.writeOk = true
      · rw [if_pos hcw] at hfk
        injection hfk with hde
        subst hde
        simp only [decide_eq_true_eq]
        intro hcontra
        rw [Prod.mk.injEq] at hcontra
        rw [hcontra.1] at hkey
        simp at hkey
      · rw [if_neg hcw] at hfk
        cases hfk
    rw [h0]
    simp
  · rw [List.filter_eq_nil_iff]
    intro d hd
    obtain ⟨kc, hkc, hfk⟩ := List.mem_filterMap.mp hd
    have hkey : (kc.1 == h.remoteAddr) = false := by
      simp only [NotificationHub.RunStep] at hkc
      by_cases hl : (mapLookup st h.remoteAddr).isSome
      · rw [if_pos hl] at hkc
        exact mapErase_key_ne st h.remoteAddr kc hkc
      · rw [if_neg hl] at hkc
        have hnone : mapLookup st h.remoteAddr = none := by
          cases hmm : mapLookup st h.remoteAddr with
          | none => rfl
          | some v => rw [hmm] at hl; simp at hl
        exact (mapLookup_eq_none_iff st h.remoteAddr).mp hnone kc hkc
    by_cases hcw : kc.2.writeOk = true
    · rw [if_pos hcw] at hfk
      injection hfk with hde
      subst hde
      simp [hkey]
    · rw [if_neg hcw] at hfk
      cases hfk

/-- C8 witness: registering a healthy connection into the empty hub and then
broadcasting delivers the notification exactly once to it; unregistering
instead delivers nothing to it. -/
theorem hub_register_broadcast_unregister_witness :
    ((NotificationHub.RunStep
        (NotificationHub.RunStep [] (HubCmd.register demoHubConn)).1
        (HubCmd.broadcast demoNotification)).2.countP
      (fun d => decide (d = (demoHubConn.remoteAddr, demoNotification))) = 1) :=
  (hub_register_broadcast_unregister [] demoHubConn demoNotification rfl).1
